import Mathlib

/-!
Shallow embedding of the visible-satellite pass finder of
`src/satellite_finder.py` (class `satellite_db`, method
`find_visible_satellites`, and the helper `azimuth_to_direction`).

Modelling conventions:
* instants are integers (seconds on an absolute timeline); the event times
  returned by the propagator's `find_events`, and all derived instants, are
  integers, matching the whole-second truncation the code performs when it
  rebuilds a time from `utc_datetime()` fields;
* angles (degrees) and heights (km) are rationals;
* the external propagator (skyfield) is an oracle carried by the `Satellite`
  record: `alt`, `az`, `sunlit` give the topocentric state at an instant,
  `events` is the `find_events` output for the query window (pairs of
  time and kind, kind 0 = rise, 1 = peak/culminate, 2 = set), and `height`
  is the geocentric height at the query start; `height = none` models the
  propagator raising an exception for this object;
* a Python exception escaping the scan is modelled by `Option`: a `none`
  result of the search models the call aborting with an uncaught exception.
-/

namespace SatFinder

/-- Embedding of `azimuth_to_direction` (satellite_finder.py lines 8-28):
the if/elif chain over degree thresholds; `none` models the implicit Python
`None` when no branch fires. -/
def azimuth_to_direction (azimuth : ℚ) : Option String :=
  if 337.5 ≤ azimuth ∨ azimuth < 22.5 then some "N"
  else if 22.5 ≤ azimuth ∧ azimuth < 67.5 then some "NE"
  else if 67.5 ≤ azimuth ∧ azimuth < 112.5 then some "E"
  else if 112.5 ≤ azimuth ∧ azimuth < 157.5 then some "SE"
  else if 157.5 ≤ azimuth ∧ azimuth < 202.5 then some "S"
  else if 202.5 ≤ azimuth ∧ azimuth < 247.5 then some "SW"
  else if 247.5 ≤ azimuth ∧ azimuth < 292.5 then some "W"
  else if 292.5 ≤ azimuth ∧ azimuth < 337.5 then some "NW"
  else none

/-- Boolean substring containment on character lists, embedding the Python
`"STARLINK" in satellite.name` membership test. -/
def containsSub (pat : List Char) : List Char → Bool
  | [] => pat.isPrefixOf []
  | c :: rest => pat.isPrefixOf (c :: rest) || containsSub pat rest

/-- Embedding of the Python test `"STARLINK" in satellite.name`. -/
def containsSTARLINK (name : String) : Bool :=
  containsSub "STARLINK".toList name.toList

/-- Embedding of the forward sunlit boundary scan (lines 291-300): starting
at `t`, step forward 10 s while the object is not sunlit and `t` is still
before `tEnd`. -/
def sunlitScanFwd (sunlit : Int → Bool) (tEnd : Int) (t : Int) : Int :=
  if h : sunlit t = false ∧ t < tEnd then sunlitScanFwd sunlit tEnd (t + 10) else t
termination_by (tEnd - t).toNat
decreasing_by
  simp_wf
  omega

/-- Embedding of the backward sunlit boundary scan (lines 306-315): starting
at `t`, step backward 10 s while the object is not sunlit and `t` is still
after `tStart`. -/
def sunlitScanBwd (sunlit : Int → Bool) (tStart : Int) (t : Int) : Int :=
  if h : sunlit t = false ∧ tStart < t then sunlitScanBwd sunlit tStart (t - 10) else t
termination_by (t - tStart).toNat
decreasing_by
  simp_wf
  omega

/-- One catalog object together with the propagator oracle for the query:
`height` is `wgs84.height_of(satellite.at(t0))` in km (`none` models the
propagator raising), `events` the `find_events` output over the window
(instant, kind), and `alt`, `az`, `sunlit` the topocentric state oracles. -/
structure Satellite where
  name : String
  height : Option ℚ
  events : List (Int × Nat)
  alt : Int → ℚ
  az : Int → ℚ
  sunlit : Int → Bool

/-- Query parameters of `find_visible_satellites` that the scan logic
consumes (the window itself is already baked into `Satellite.events`). -/
structure Query where
  smaMin : ℚ
  smaMax : ℚ
  minPeakAltitude : ℚ
  minDuration : ℚ
  includeStarlink : Bool

/-- One accepted pass, the record appended at lines 332-345 (the list
`[satellite, t_start, t_peak, t_end, start_dir, end_dir, peak_alt,
duration, t_sun_start, t_sun_end]`). -/
structure Pass where
  satName : String
  tStart : Int
  tPeak : Int
  tEnd : Int
  startDir : Option String
  endDir : Option String
  peakAlt : ℚ
  duration : ℚ
  tSunStart : Int
  tSunEnd : Int

/-- Embedding of the per-triple body of the inner while loop (lines
271-345): gross duration filter, peak-elevation filter, sunlit window
refinement with its two guards, refined duration filter, and the final
sunlit-at-peak gate; `some` is the appended record, `none` a `continue`. -/
def processTriple (q : Query) (sat : Satellite) (tStart tPeak tEnd : Int) :
    Option Pass :=
  let duration0 : ℚ := ((tEnd - tStart : Int) : ℚ)
  if duration0 < q.minDuration then none
  else
    let peakAlt := sat.alt tPeak
    if peakAlt < q.minPeakAltitude then none
    else
      let startAz := sat.az tStart
      let endAz := sat.az tEnd
      let tSunStart := sunlitScanFwd sat.sunlit tEnd tStart
      if tEnd ≤ tSunStart then none
      else
        let tSunEnd := sunlitScanBwd sat.sunlit tStart tEnd
        if tSunEnd ≤ tStart then none
        else
          let duration : ℚ := ((tSunEnd - tSunStart : Int) : ℚ)
          if duration < q.minDuration then none
          else if sat.sunlit tPeak then
            some { satName := sat.name, tStart := tStart, tPeak := tPeak,
                   tEnd := tEnd,
                   startDir := azimuth_to_direction startAz,
                   endDir := azimuth_to_direction endAz,
                   peakAlt := peakAlt, duration := duration,
                   tSunStart := tSunStart, tSunEnd := tSunEnd }
          else none

/-- Embedding of the unguarded scan for the first rise event (lines
265-268, `while events[i] != 0: i += 1`): returns the suffix of the event
list starting at the first rise; `none` models the index running past the
end of the array (Python `IndexError`) when no rise event exists. -/
def riseScan : List (Int × Nat) → Option (List (Int × Nat))
  | [] => none
  | e :: rest => if e.2 = 0 then some (e :: rest) else riseScan rest

/-- Embedding of the triple-consuming while loop (lines 269-345,
`while i + 2 < len(events - 1)`, which for the numpy event array is the
bound `i + 2 < len(events)`): starting from the first rise, consume three
events at a time, evaluate the triple, and stop when fewer than three
events remain. -/
def tripleLoop (q : Query) (sat : Satellite) : List (Int × Nat) → List Pass
  | a :: b :: c :: rest =>
      match processTriple q sat a.1 b.1 c.1 with
      | some p => p :: tripleLoop q sat rest
      | none => tripleLoop q sat rest
  | _ => []

/-- Embedding of one iteration of the catalog scan (lines 253-345):
name pre-filter, height pre-filter, event-count guard, rise scan, triple
loop. `some []` is a skipped object (`continue`), `none` an uncaught
exception (propagation failure or the rise scan running out of bounds). -/
def processSatellite (q : Query) (sat : Satellite) : Option (List Pass) :=
  if !q.includeStarlink && containsSTARLINK sat.name then some []
  else
    match sat.height with
    | none => none
    | some h =>
      if h < q.smaMin ∨ q.smaMax < h then some []
      else if sat.events.length ≤ 3 then some []
      else
        match riseScan sat.events with
        | none => none
        | some suffix => some (tripleLoop q sat suffix)

/-- Embedding of the catalog scan (`for satellite in self.satellites`):
collect the accepted passes in catalog order; a `none` from any object
aborts the whole scan (the code installs no per-object exception
handler, so an exception propagates out of `find_visible_satellites`). -/
def collectPasses (q : Query) : List Satellite → Option (List Pass)
  | [] => some []
  | sat :: rest =>
    match processSatellite q sat with
    | none => none
    | some ps => (collectPasses q rest).map (fun l => ps ++ l)

/-- Embedding of `find_visible_satellites` (lines 201-350) downstream of
the window computation: scan the catalog, then stable-sort the accepted
passes ascending by `t_start` (`visible_satellites.sort(key=lambda x:
x[1])`; Python list sort is a stable merge sort). -/
def find_visible_satellites (q : Query) (catalog : List Satellite) :
    Option (List Pass) :=
  (collectPasses q catalog).map
    (fun l => l.mergeSort (fun a b => decide (a.tStart ≤ b.tStart)))

/-- Embedding of skyfield `ts.utc(year, month, day, hour, minute, second)`
restricted to what the window computation needs: `dayEpoch` abstracts the
instant of `(year, month, day)` midnight, and an hour argument beyond 23
normalizes linearly into later days, which skyfield performs exactly. -/
def ts_utc (dayEpoch hour minute second : Int) : Int :=
  dayEpoch + 3600 * hour + 60 * minute + second

/-- Python `int()` on a rational: truncation toward zero. -/
def pyInt (q : ℚ) : Int :=
  if q < 0 then -Int.floor (-q) else Int.floor q

/-- Embedding of the window start `t0` (lines 237-239). -/
def search_t0 (dayEpoch hour minute second : Int) : Int :=
  ts_utc dayEpoch hour minute second

/-- Embedding of the window end `t1` (lines 242-249): the code passes
`time.hour + int(timeframe_hours)` as the hour argument. -/
def search_t1 (dayEpoch hour minute second : Int) (timeframe_hours : ℚ) : Int :=
  ts_utc dayEpoch (hour + pyInt timeframe_hours) minute second

/-- Complete consecutive triples of an event list, as the spec words the
segmentation: consume three events at a time from the first rise and
discard a trailing group of fewer than three events. Spec-side
characterization used to state the refinement claims about `tripleLoop`. -/
def specCompleteTriples :
    List (Int × Nat) → List ((Int × Nat) × (Int × Nat) × (Int × Nat))
  | a :: b :: c :: rest => (a, b, c) :: specCompleteTriples rest
  | _ => []

/-- Boolean check that a kind list cycles rise→peak→set starting at kind
`k` (kinds are 0, 1, 2 and advance modulo 3). -/
def kindsCycleFrom : Nat → List Nat → Bool
  | _, [] => true
  | k, x :: xs => (x == k) && kindsCycleFrom ((k + 1) % 3) xs

/-- Compass mapping as the spec words it (spec section 4.3): each of the 8
directions owns the 45-degree sector `[center - 22.5, center + 22.5)`
including its lower boundary (the sector is written out from its center),
and everything left over is the north sector, which wraps across the 0/360
discontinuity. Spec-side definition, compared with `azimuth_to_direction`. -/
def specCompass (az : ℚ) : String :=
  if 45 - 22.5 ≤ az ∧ az < 45 + 22.5 then "NE"
  else if 90 - 22.5 ≤ az ∧ az < 90 + 22.5 then "E"
  else if 135 - 22.5 ≤ az ∧ az < 135 + 22.5 then "SE"
  else if 180 - 22.5 ≤ az ∧ az < 180 + 22.5 then "S"
  else if 225 - 22.5 ≤ az ∧ az < 225 + 22.5 then "SW"
  else if 270 - 22.5 ≤ az ∧ az < 270 + 22.5 then "W"
  else if 315 - 22.5 ≤ az ∧ az < 315 + 22.5 then "NW"
  else "N"

/-! Concrete inputs used to exercise the model: a query matching the spec
scenarios (height range [500, 600] km, minimum duration 30 s, minimum peak
elevation 30 degrees, large constellation excluded) and a handful of
synthetic satellites. -/

/-- Scenario query: height range [500, 600] km, min duration 30 s, min
peak elevation 30 degrees, STARLINK excluded. -/
def qA : Query :=
  { smaMin := 500, smaMax := 600, minPeakAltitude := 30, minDuration := 30,
    includeStarlink := false }

/-- Scenario A object: exactly one complete rise/peak/set triple at
T+100 s / T+150 s / T+200 s, peak elevation 45 degrees, sunlit throughout,
height 550 km. -/
def satA : Satellite :=
  { name := "SAT-A", height := some 550,
    events := [(100, 0), (150, 1), (200, 2)],
    alt := fun _ => 45, az := fun _ => 10, sunlit := fun _ => true }

/-- Object identical to Scenario A but with one extra trailing rise event,
so that the event list has more than 3 entries. -/
def satB : Satellite :=
  { name := "SAT-B", height := some 550,
    events := [(100, 0), (150, 1), (200, 2), (300, 0)],
    alt := fun _ => 45, az := fun _ => 10, sunlit := fun _ => true }

/-- The single pass satB produces under qA. -/
def passB : Pass :=
  { satName := "SAT-B", tStart := 100, tPeak := 150, tEnd := 200,
    startDir := some "N", endDir := some "N", peakAlt := 45, duration := 100,
    tSunStart := 100, tSunEnd := 200 }

/-- Scenario B object: identical to satB except the sunlit predicate is
false exactly at the peak instant T+150 s. -/
def satPeakShadow : Satellite :=
  { name := "SAT-PS", height := some 550,
    events := [(100, 0), (150, 1), (200, 2), (300, 0)],
    alt := fun _ => 45, az := fun _ => 10,
    sunlit := fun t => decide (t ≠ 150) }

/-- Scenario C object: the crossing-event sequence begins with a set event
(window opened mid-pass), followed by one complete rise/peak/set triple. -/
def satC : Satellite :=
  { name := "SAT-C", height := some 550,
    events := [(50, 2), (100, 0), (150, 1), (200, 2)],
    alt := fun _ => 45, az := fun _ => 10, sunlit := fun _ => true }

/-- Object for which the propagator raises (modelled by `height = none`). -/
def satBadProp : Satellite :=
  { name := "BAD", height := none, events := [],
    alt := fun _ => 0, az := fun _ => 0, sunlit := fun _ => true }

/-- Object whose event sequence has more than 3 events but no rise kind. -/
def satNoRise : Satellite :=
  { name := "SAT-NR", height := some 550,
    events := [(0, 1), (10, 2), (20, 1), (30, 2)],
    alt := fun _ => 45, az := fun _ => 10, sunlit := fun _ => true }

/-- Large-constellation object; its propagator oracle raises on any call
(`height = none`), so any propagator interaction would abort the scan. -/
def satStar : Satellite :=
  { name := "STARLINK-1234", height := none, events := [],
    alt := fun _ => 0, az := fun _ => 0, sunlit := fun _ => true }

/-! Helper lemmas about the loops of the embedding. -/

/-- The forward sunlit scan never moves backward. -/
theorem sunlitScanFwd_ge (s : Int → Bool) (tEnd t : Int) :
    t ≤ sunlitScanFwd s tEnd t := by
  rw [sunlitScanFwd]
  split
  · have ih := sunlitScanFwd_ge s tEnd (t + 10)
    omega
  · omega
termination_by (tEnd - t).toNat
decreasing_by
  simp_wf
  omega

/-- The backward sunlit scan never moves forward. -/
theorem sunlitScanBwd_le (s : Int → Bool) (tStart t : Int) :
    sunlitScanBwd s tStart t ≤ t := by
  rw [sunlitScanBwd]
  split
  · have ih := sunlitScanBwd_le s tStart (t - 10)
    omega
  · omega
termination_by (t - tStart).toNat
decreasing_by
  simp_wf
  omega

/-- Field values and filter facts extracted from an accepted triple. -/
theorem processTriple_eq_some {q : Query} {sat : Satellite}
    {tS tP tE : Int} {p : Pass}
    (h : processTriple q sat tS tP tE = some p) :
    p.satName = sat.name ∧ p.tStart = tS ∧ p.tPeak = tP ∧ p.tEnd = tE ∧
    q.minDuration ≤ p.duration ∧ q.minPeakAltitude ≤ p.peakAlt ∧
    tS ≤ p.tSunStart ∧ p.tSunStart < tE ∧ tS < p.tSunEnd ∧ p.tSunEnd ≤ tE ∧
    sat.sunlit tP = true := by
  simp only [processTriple] at h
  split_ifs at h with h1 h2 h3 h4 h5 h6
  injection h with h
  subst h
  refine ⟨rfl, rfl, rfl, rfl, not_lt.mp h5, not_lt.mp h2, ?_, ?_, ?_, ?_, h6⟩
  · exact sunlitScanFwd_ge sat.sunlit tE tS
  · exact not_le.mp h3
  · exact not_le.mp h4
  · exact sunlitScanBwd_le sat.sunlit tS tE

/-- Every member of the triple loop output comes from an accepted triple of
three consecutive events of the scanned list. -/
theorem tripleLoop_mem {q : Query} {sat : Satellite} :
    ∀ (l : List (Int × Nat)) (p : Pass), p ∈ tripleLoop q sat l →
      ∃ a b c, [a, b, c].Sublist l ∧ processTriple q sat a.1 b.1 c.1 = some p
  | a :: b :: c :: rest, p, hp => by
    simp only [tripleLoop] at hp
    rcases hproc : processTriple q sat a.1 b.1 c.1 with _ | p0
    · rw [hproc] at hp
      obtain ⟨x, y, z, hsub, hx⟩ := tripleLoop_mem rest p hp
      refine ⟨x, y, z, ?_, hx⟩
      exact hsub.trans ((List.sublist_cons_self c rest).trans
        ((List.sublist_cons_self b (c :: rest)).trans
          (List.sublist_cons_self a (b :: c :: rest))))
    · rw [hproc] at hp
      rcases List.mem_cons.mp hp with rfl | hp2
      · exact ⟨a, b, c,
          ((List.nil_sublist rest).cons₂ c).cons₂ b |>.cons₂ a, hproc⟩
      · obtain ⟨x, y, z, hsub, hx⟩ := tripleLoop_mem rest p hp2
        refine ⟨x, y, z, ?_, hx⟩
        exact hsub.trans ((List.sublist_cons_self c rest).trans
          ((List.sublist_cons_self b (c :: rest)).trans
            (List.sublist_cons_self a (b :: c :: rest))))
  | [], p, hp => by simp [tripleLoop] at hp
  | [a], p, hp => by simp [tripleLoop] at hp
  | [a, b], p, hp => by simp [tripleLoop] at hp

/-- The rise scan returns a suffix of its input. -/
theorem riseScan_isSuffix :
    ∀ {l s : List (Int × Nat)}, riseScan l = some s → s.IsSuffix l
  | [], s, h => Option.noConfusion h
  | e :: rest, s, h => by
    simp only [riseScan] at h
    split_ifs at h with hk
    · injection h with h
      subst h
      exact List.suffix_refl _
    · exact (riseScan_isSuffix h).trans (List.suffix_cons e rest)

/-- The rise scan walks past the end of the list exactly when the list has
no rise event. -/
theorem riseScan_eq_none_iff :
    ∀ l : List (Int × Nat), riseScan l = none ↔ ∀ e ∈ l, e.2 ≠ 0
  | [] => by simp [riseScan]
  | e :: rest => by
    simp only [riseScan]
    split_ifs with hk
    · simp [hk]
    · simp [riseScan_eq_none_iff rest, hk]

/-- The rise scan skips exactly the leading events before the first rise. -/
theorem riseScan_append {pre : List (Int × Nat)}
    (hpre : ∀ e ∈ pre, e.2 ≠ 0) (e : Int × Nat) (rest : List (Int × Nat))
    (he : e.2 = 0) : riseScan (pre ++ e :: rest) = some (e :: rest) := by
  induction pre with
  | nil => simp [riseScan, he]
  | cons a pre ih =>
    have ha : a.2 ≠ 0 := hpre a (List.mem_cons_self a pre)
    simp only [List.cons_append, riseScan, if_neg ha]
    exact ih (fun x hx => hpre x (List.mem_cons_of_mem a hx))

/-- The triple loop evaluates exactly the complete consecutive triples of
its input and keeps the accepted ones. -/
theorem tripleLoop_eq_filterMap (q : Query) (sat : Satellite) :
    ∀ l : List (Int × Nat),
      tripleLoop q sat l = (specCompleteTriples l).filterMap
        (fun x => processTriple q sat x.1.1 x.2.1.1 x.2.2.1)
  | a :: b :: c :: rest => by
    simp only [tripleLoop, specCompleteTriples, List.filterMap_cons]
    rcases hproc : processTriple q sat a.1 b.1 c.1 with _ | p0 <;>
      simp [tripleLoop_eq_filterMap q sat rest]
  | [] => by simp [tripleLoop, specCompleteTriples]
  | [a] => by simp [tripleLoop, specCompleteTriples]
  | [a, b] => by simp [tripleLoop, specCompleteTriples]

/-- When the event kinds cycle rise, peak, set from a rise on, every
complete consecutive triple is a rise/peak/set triple. -/
theorem specCompleteTriples_kinds :
    ∀ l : List (Int × Nat), kindsCycleFrom 0 (l.map Prod.snd) = true →
      ∀ x ∈ specCompleteTriples l, x.1.2 = 0 ∧ x.2.1.2 = 1 ∧ x.2.2.2 = 2
  | a :: b :: c :: rest, h, x, hx => by
    simp only [List.map_cons, kindsCycleFrom, Bool.and_eq_true,
      beq_iff_eq] at h
    norm_num at h
    rcases List.mem_cons.mp hx with rfl | hx2
    · exact ⟨h.1, h.2.1, h.2.2.1⟩
    · exact specCompleteTriples_kinds rest h.2.2.2 x hx2
  | [], h, x, hx => by simp [specCompleteTriples] at hx
  | [a], h, x, hx => by simp [specCompleteTriples] at hx
  | [a, b], h, x, hx => by simp [specCompleteTriples] at hx

/-- Unpacking a successful per-object scan around one of its passes: the
object survived the name pre-filter, and the pass comes from the triple
loop over the suffix found by the rise scan. -/
theorem processSatellite_mem {q : Query} {sat : Satellite} {ps : List Pass}
    (h : processSatellite q sat = some ps) {p : Pass} (hp : p ∈ ps) :
    (!q.includeStarlink && containsSTARLINK sat.name) = false ∧
    ∃ suffix, riseScan sat.events = some suffix ∧
      p ∈ tripleLoop q sat suffix := by
  simp only [processSatellite] at h
  by_cases hstar : (!q.includeStarlink && containsSTARLINK sat.name) = true
  · rw [if_pos hstar] at h
    injection h with h
    subst h
    exact absurd hp (List.not_mem_nil p)
  · rw [if_neg hstar] at h
    rcases hh : sat.height with _ | hgt <;> rw [hh] at h
    · exact Option.noConfusion h
    · dsimp only at h
      by_cases hrange : hgt < q.smaMin ∨ q.smaMax < hgt
      · rw [if_pos hrange] at h
        injection h with h
        subst h
        exact absurd hp (List.not_mem_nil p)
      · rw [if_neg hrange] at h
        by_cases hlen : sat.events.length ≤ 3
        · rw [if_pos hlen] at h
          injection h with h
          subst h
          exact absurd hp (List.not_mem_nil p)
        · rw [if_neg hlen] at h
          rcases hrs : riseScan sat.events with _ | suffix <;> rw [hrs] at h
          · exact Option.noConfusion h
          · injection h with h
            subst h
            exact ⟨by simpa using hstar, suffix, rfl, hp⟩

/-- Every pass collected by the catalog scan comes from some object of the
catalog whose per-object scan accepted it. -/
theorem collectPasses_mem {q : Query} :
    ∀ (cat : List Satellite) (res : List Pass),
      collectPasses q cat = some res → ∀ p ∈ res,
      ∃ sat, sat ∈ cat ∧ ∃ ps, processSatellite q sat = some ps ∧ p ∈ ps
  | [], res, h, p, hp => by
    simp only [collectPasses] at h
    injection h with h
    subst h
    exact absurd hp (List.not_mem_nil p)
  | sat :: rest, res, h, p, hp => by
    simp only [collectPasses] at h
    rcases hps : processSatellite q sat with _ | ps
    · rw [hps] at h
      exact Option.noConfusion h
    · rw [hps] at h
      rcases hrest : collectPasses q rest with _ | res2
      · rw [hrest] at h
        exact Option.noConfusion h
      · rw [hrest] at h
        simp only [Option.map_some] at h
        injection h with h
        subst h
        rcases List.mem_append.mp hp with h1 | h2
        · exact ⟨sat, List.mem_cons_self sat rest, ps, hps, h1⟩
        · obtain ⟨s, hs, ps2, hps2, hp2⟩ := collectPasses_mem rest res2 hrest p h2
          exact ⟨s, List.mem_cons_of_mem sat hs, ps2, hps2, hp2⟩

/-- An uncaught per-object exception anywhere in the catalog aborts the
whole scan. -/
theorem collectPasses_abort {q : Query} :
    ∀ (cat : List Satellite) (sat : Satellite), sat ∈ cat →
      processSatellite q sat = none → collectPasses q cat = none
  | s :: rest, sat, hmem, hnone => by
    simp only [collectPasses]
    rcases List.mem_cons.mp hmem with rfl | hmem2
    · rw [hnone]
    · rcases hps : processSatellite q s with _ | ps
      · rfl
      · rw [collectPasses_abort rest sat hmem2 hnone]
        rfl

/-- Unpacking a successful search around one returned pass: the pass comes
from a catalog object that survived the name pre-filter, out of a triple
of three consecutive events of the rise-scan suffix. -/
theorem find_visible_unpack {q : Query} {catalog : List Satellite}
    {res : List Pass} (hres : find_visible_satellites q catalog = some res)
    {p : Pass} (hp : p ∈ res) :
    ∃ sat, sat ∈ catalog ∧
      (!q.includeStarlink && containsSTARLINK sat.name) = false ∧
      ∃ suffix a b c, riseScan sat.events = some suffix ∧
        [a, b, c].Sublist suffix ∧ processTriple q sat a.1 b.1 c.1 = some p := by
  simp only [find_visible_satellites] at hres
  rcases hc : collectPasses q catalog with _ | collected <;> rw [hc] at hres
  · exact Option.noConfusion hres
  · simp only [Option.map_some'] at hres
    injection hres with hres
    subst hres
    have hp2 : p ∈ collected := List.mem_mergeSort.mp hp
    obtain ⟨sat, hsat, ps, hps, hpps⟩ :=
      collectPasses_mem catalog collected hc p hp2
    obtain ⟨hname, suffix, hrs, hpt⟩ := processSatellite_mem hps hpps
    obtain ⟨a, b, c, hsub, hproc⟩ := tripleLoop_mem suffix p hpt
    exact ⟨sat, hsat, hname, suffix, a, b, c, hrs, hsub, hproc⟩

/-! Claim theorems. -/

/-- Evaluation of the code compass chain on each sector. -/
theorem azd_eval_N_low {az : ℚ} (h : az < 22.5) :
    azimuth_to_direction az = some "N" := by
  unfold azimuth_to_direction
  rw [if_pos (Or.inr h)]

/-- Evaluation of the code compass chain on the wrapped north sector. -/
theorem azd_eval_N_high {az : ℚ} (h : 337.5 ≤ az) :
    azimuth_to_direction az = some "N" := by
  unfold azimuth_to_direction
  rw [if_pos (Or.inl h)]

/-- Evaluation of the code compass chain on the north-east sector. -/
theorem azd_eval_NE {az : ℚ} (h1 : 22.5 ≤ az) (h2 : az < 67.5) :
    azimuth_to_direction az = some "NE" := by
  unfold azimuth_to_direction
  rw [if_neg (not_or.mpr ⟨by linarith, by linarith⟩), if_pos ⟨h1, h2⟩]

/-- Evaluation of the code compass chain on the east sector. -/
theorem azd_eval_E {az : ℚ} (h1 : 67.5 ≤ az) (h2 : az < 112.5) :
    azimuth_to_direction az = some "E" := by
  unfold azimuth_to_direction
  rw [if_neg (not_or.mpr ⟨by linarith, by linarith⟩),
    if_neg (by rintro ⟨x, y⟩ ; linarith), if_pos ⟨h1, h2⟩]

/-- Evaluation of the code compass chain on the south-east sector. -/
theorem azd_eval_SE {az : ℚ} (h1 : 112.5 ≤ az) (h2 : az < 157.5) :
    azimuth_to_direction az = some "SE" := by
  unfold azimuth_to_direction
  rw [if_neg (not_or.mpr ⟨by linarith, by linarith⟩),
    if_neg (by rintro ⟨x, y⟩ ; linarith),
    if_neg (by rintro ⟨x, y⟩ ; linarith), if_pos ⟨h1, h2⟩]

/-- Evaluation of the code compass chain on the south sector. -/
theorem azd_eval_S {az : ℚ} (h1 : 157.5 ≤ az) (h2 : az < 202.5) :
    azimuth_to_direction az = some "S" := by
  unfold azimuth_to_direction
  rw [if_neg (not_or.mpr ⟨by linarith, by linarith⟩),
    if_neg (by rintro ⟨x, y⟩ ; linarith),
    if_neg (by rintro ⟨x, y⟩ ; linarith),
    if_neg (by rintro ⟨x, y⟩ ; linarith), if_pos ⟨h1, h2⟩]

/-- Evaluation of the code compass chain on the south-west sector. -/
theorem azd_eval_SW {az : ℚ} (h1 : 202.5 ≤ az) (h2 : az < 247.5) :
    azimuth_to_direction az = some "SW" := by
  unfold azimuth_to_direction
  rw [if_neg (not_or.mpr ⟨by linarith, by linarith⟩),
    if_neg (by rintro ⟨x, y⟩ ; linarith),
    if_neg (by rintro ⟨x, y⟩ ; linarith),
    if_neg (by rintro ⟨x, y⟩ ; linarith),
    if_neg (by rintro ⟨x, y⟩ ; linarith), if_pos ⟨h1, h2⟩]

/-- Evaluation of the code compass chain on the west sector. -/
theorem azd_eval_W {az : ℚ} (h1 : 247.5 ≤ az) (h2 : az < 292.5) :
    azimuth_to_direction az = some "W" := by
  unfold azimuth_to_direction
  rw [if_neg (not_or.mpr ⟨by linarith, by linarith⟩),
    if_neg (by rintro ⟨x, y⟩ ; linarith),
    if_neg (by rintro ⟨x, y⟩ ; linarith),
    if_neg (by rintro ⟨x, y⟩ ; linarith),
    if_neg (by rintro ⟨x, y⟩ ; linarith),
    if_neg (by rintro ⟨x, y⟩ ; linarith), if_pos ⟨h1, h2⟩]

/-- Evaluation of the code compass chain on the north-west sector. -/
theorem azd_eval_NW {az : ℚ} (h1 : 292.5 ≤ az) (h2 : az < 337.5) :
    azimuth_to_direction az = some "NW" := by
  unfold azimuth_to_direction
  rw [if_neg (not_or.mpr ⟨by linarith, by linarith⟩),
    if_neg (by rintro ⟨x, y⟩ ; linarith),
    if_neg (by rintro ⟨x, y⟩ ; linarith),
    if_neg (by rintro ⟨x, y⟩ ; linarith),
    if_neg (by rintro ⟨x, y⟩ ; linarith),
    if_neg (by rintro ⟨x, y⟩ ; linarith),
    if_neg (by rintro ⟨x, y⟩ ; linarith), if_pos ⟨h1, h2⟩]

/-- Evaluation of the spec sector assignment on the north sector. -/
theorem spc_eval_N {az : ℚ} (h : az < 22.5 ∨ 337.5 ≤ az) :
    specCompass az = "N" := by
  unfold specCompass
  rcases h with h | h <;>
    rw [if_neg (by rintro ⟨x, y⟩ ; linarith),
      if_neg (by rintro ⟨x, y⟩ ; linarith),
      if_neg (by rintro ⟨x, y⟩ ; linarith),
      if_neg (by rintro ⟨x, y⟩ ; linarith),
      if_neg (by rintro ⟨x, y⟩ ; linarith),
      if_neg (by rintro ⟨x, y⟩ ; linarith),
      if_neg (by rintro ⟨x, y⟩ ; linarith)]

/-- Evaluation of the spec sector assignment on the north-east sector. -/
theorem spc_eval_NE {az : ℚ} (h1 : 22.5 ≤ az) (h2 : az < 67.5) :
    specCompass az = "NE" := by
  unfold specCompass
  rw [if_pos ⟨by linarith, by linarith⟩]

/-- Evaluation of the spec sector assignment on the east sector. -/
theorem spc_eval_E {az : ℚ} (h1 : 67.5 ≤ az) (h2 : az < 112.5) :
    specCompass az = "E" := by
  unfold specCompass
  rw [if_neg (by rintro ⟨x, y⟩ ; linarith), if_pos ⟨by linarith, by linarith⟩]

/-- Evaluation of the spec sector assignment on the south-east sector. -/
theorem spc_eval_SE {az : ℚ} (h1 : 112.5 ≤ az) (h2 : az < 157.5) :
    specCompass az = "SE" := by
  unfold specCompass
  rw [if_neg (by rintro ⟨x, y⟩ ; linarith),
    if_neg (by rintro ⟨x, y⟩ ; linarith), if_pos ⟨by linarith, by linarith⟩]

/-- Evaluation of the spec sector assignment on the south sector. -/
theorem spc_eval_S {az : ℚ} (h1 : 157.5 ≤ az) (h2 : az < 202.5) :
    specCompass az = "S" := by
  unfold specCompass
  rw [if_neg (by rintro ⟨x, y⟩ ; linarith),
    if_neg (by rintro ⟨x, y⟩ ; linarith),
    if_neg (by rintro ⟨x, y⟩ ; linarith), if_pos ⟨by linarith, by linarith⟩]

/-- Evaluation of the spec sector assignment on the south-west sector. -/
theorem spc_eval_SW {az : ℚ} (h1 : 202.5 ≤ az) (h2 : az < 247.5) :
    specCompass az = "SW" := by
  unfold specCompass
  rw [if_neg (by rintro ⟨x, y⟩ ; linarith),
    if_neg (by rintro ⟨x, y⟩ ; linarith),
    if_neg (by rintro ⟨x, y⟩ ; linarith),
    if_neg (by rintro ⟨x, y⟩ ; linarith), if_pos ⟨by linarith, by linarith⟩]

/-- Evaluation of the spec sector assignment on the west sector. -/
theorem spc_eval_W {az : ℚ} (h1 : 247.5 ≤ az) (h2 : az < 292.5) :
    specCompass az = "W" := by
  unfold specCompass
  rw [if_neg (by rintro ⟨x, y⟩ ; linarith),
    if_neg (by rintro ⟨x, y⟩ ; linarith),
    if_neg (by rintro ⟨x, y⟩ ; linarith),
    if_neg (by rintro ⟨x, y⟩ ; linarith),
    if_neg (by rintro ⟨x, y⟩ ; linarith), if_pos ⟨by linarith, by linarith⟩]

/-- Evaluation of the spec sector assignment on the north-west sector. -/
theorem spc_eval_NW {az : ℚ} (h1 : 292.5 ≤ az) (h2 : az < 337.5) :
    specCompass az = "NW" := by
  unfold specCompass
  rw [if_neg (by rintro ⟨x, y⟩ ; linarith),
    if_neg (by rintro ⟨x, y⟩ ; linarith),
    if_neg (by rintro ⟨x, y⟩ ; linarith),
    if_neg (by rintro ⟨x, y⟩ ; linarith),
    if_neg (by rintro ⟨x, y⟩ ; linarith),
    if_neg (by rintro ⟨x, y⟩ ; linarith), if_pos ⟨by linarith, by linarith⟩]

/-- C4: the azimuth-to-compass mapping agrees on all of [0, 360) with the
spec's sector assignment `specCompass` - each of the 8 directions owns the
45-degree sector [center - 22.5, center + 22.5) including its lower
boundary, with north wrapping across the 0/360 discontinuity - and in
particular it is total there, since `specCompass` always yields a
direction. -/
theorem azimuth_to_direction_matches_spec (az : ℚ) (_h0 : 0 ≤ az)
    (_h1 : az < 360) : azimuth_to_direction az = some (specCompass az) := by
  by_cases c1 : az < 22.5
  · rw [azd_eval_N_low c1, spc_eval_N (Or.inl c1)]
  · by_cases c2 : az < 67.5
    · rw [azd_eval_NE (not_lt.mp c1) c2, spc_eval_NE (not_lt.mp c1) c2]
    · by_cases c3 : az < 112.5
      · rw [azd_eval_E (not_lt.mp c2) c3, spc_eval_E (not_lt.mp c2) c3]
      · by_cases c4 : az < 157.5
        · rw [azd_eval_SE (not_lt.mp c3) c4, spc_eval_SE (not_lt.mp c3) c4]
        · by_cases c5 : az < 202.5
          · rw [azd_eval_S (not_lt.mp c4) c5, spc_eval_S (not_lt.mp c4) c5]
          · by_cases c6 : az < 247.5
            · rw [azd_eval_SW (not_lt.mp c5) c6,
                spc_eval_SW (not_lt.mp c5) c6]
            · by_cases c7 : az < 292.5
              · rw [azd_eval_W (not_lt.mp c6) c7,
                  spc_eval_W (not_lt.mp c6) c7]
              · by_cases c8 : az < 337.5
                · rw [azd_eval_NW (not_lt.mp c7) c8,
                    spc_eval_NW (not_lt.mp c7) c8]
                · rw [azd_eval_N_high (not_lt.mp c8),
                    spc_eval_N (Or.inr (not_lt.mp c8))]

/-- Witness for C4: the boundary value table of the claim, each entry
obtained from `azimuth_to_direction_matches_spec` at that azimuth. -/
theorem azimuth_to_direction_matches_spec_witness :
    azimuth_to_direction 0 = some "N" ∧
    azimuth_to_direction 22.4999 = some "N" ∧
    azimuth_to_direction 22.5 = some "NE" ∧
    azimuth_to_direction 90 = some "E" ∧
    azimuth_to_direction 180 = some "S" ∧
    azimuth_to_direction 270 = some "W" ∧
    azimuth_to_direction 337.5 = some "N" ∧
    azimuth_to_direction 359.999 = some "N" := by
  refine ⟨?_, ?_, ?_, ?_, ?_, ?_, ?_, ?_⟩ <;>
    · rw [azimuth_to_direction_matches_spec _ (by norm_num) (by norm_num)]
      norm_num [specCompass]

/-- C3 counterexample: with a window of 1.5 hours starting at instant 0,
the end of the searched interval computed by the code is 3600 s, not the
5400 s the claim requires - `int(timeframe_hours)` discards the fractional
half hour. -/
theorem search_window_fractional_counterexample :
    ¬(((search_t1 0 0 0 0 (3 / 2) : Int) : ℚ) =
      ((search_t0 0 0 0 0 : Int) : ℚ) + (3 / 2) * 3600) := by
  norm_num [search_t1, search_t0, ts_utc, pyInt]

/-- C3 amended: crossing events are requested over the interval from the
start to the start plus `floor(w)` whole hours - the fractional part of
the window duration is discarded by the int() truncation - and exactly for
integer window durations the end equals the start plus the full window. -/
theorem search_window_truncated (e h m s : Int) (w : ℚ) (hw : 0 ≤ w) :
    search_t1 e h m s w = search_t0 e h m s + 3600 * Int.floor w ∧
    (∀ n : ℤ, w = n →
      ((search_t1 e h m s w : Int) : ℚ) =
        ((search_t0 e h m s : Int) : ℚ) + w * 3600) := by
  have hpy : pyInt w = Int.floor w := by
    unfold pyInt
    rw [if_neg (not_lt.mpr hw)]
  constructor
  · unfold search_t1 search_t0 ts_utc
    rw [hpy]
    ring
  · intro n hn
    unfold search_t1 search_t0 ts_utc
    rw [hpy]
    subst hn
    rw [Int.floor_intCast]
    push_cast
    ring

/-- Witness for C3 amended: a 2-hour window starting at hour 1, minute 2,
second 3 of some day epoch. -/
theorem search_window_truncated_witness :
    search_t1 5 1 2 3 2 = search_t0 5 1 2 3 + 3600 * Int.floor (2 : ℚ) ∧
    (∀ n : ℤ, (2 : ℚ) = n →
      ((search_t1 5 1 2 3 2 : Int) : ℚ) =
        ((search_t0 5 1 2 3 : Int) : ℚ) + 2 * 3600) :=
  search_window_truncated 5 1 2 3 2 (by norm_num)

/-- C2: for an event sequence made of leading non-rise events, then a rise
whose kinds cycle rise, peak, set to the end, the detector skips exactly
the leading events (rise scan), evaluates exactly the complete consecutive
triples of the remainder - each a rise/peak/set triple - and discards any
trailing group of fewer than three events (`specCompleteTriples` keeps no
such group). -/
theorem detector_segmentation (q : Query) (sat : Satellite)
    (pre rest : List (Int × Nat)) (t0 : Int)
    (hpre : ∀ e ∈ pre, e.2 ≠ 0)
    (hev : sat.events = pre ++ (t0, 0) :: rest)
    (hcyc : kindsCycleFrom 0 (((t0, 0) :: rest).map Prod.snd) = true) :
    riseScan sat.events = some ((t0, 0) :: rest) ∧
    tripleLoop q sat ((t0, 0) :: rest) =
      (specCompleteTriples ((t0, 0) :: rest)).filterMap
        (fun x => processTriple q sat x.1.1 x.2.1.1 x.2.2.1) ∧
    ∀ x ∈ specCompleteTriples ((t0, 0) :: rest),
      x.1.2 = 0 ∧ x.2.1.2 = 1 ∧ x.2.2.2 = 2 := by
  refine ⟨?_, tripleLoop_eq_filterMap q sat _,
    specCompleteTriples_kinds _ hcyc⟩
  rw [hev]
  exact riseScan_append hpre (t0, 0) rest rfl

/-- Witness for C2: Scenario C, the sequence set, rise, peak, set - the
leading set is discarded and only the one complete triple is evaluated. -/
theorem detector_segmentation_witness :
    riseScan satC.events = some [(100, 0), (150, 1), (200, 2)] ∧
    tripleLoop qA satC [(100, 0), (150, 1), (200, 2)] =
      (specCompleteTriples [(100, 0), (150, 1), (200, 2)]).filterMap
        (fun x => processTriple qA satC x.1.1 x.2.1.1 x.2.2.1) ∧
    ∀ x ∈ specCompleteTriples [(100, 0), (150, 1), (200, 2)],
      x.1.2 = 0 ∧ x.2.1.2 = 1 ∧ x.2.2.2 = 2 :=
  detector_segmentation qA satC [(50, 2)] [(150, 1), (200, 2)] 100
    (by decide) (by rfl) (by decide)

/-- C5: a triple is accepted only if the object is sunlit exactly at the
peak instant - when the sunlit predicate is false at the peak, the triple
is rejected no matter what the refined sunlit boundaries were (final gate
of lines 329-331). -/
theorem peak_sunlit_gate (q : Query) (sat : Satellite) (tS tP tE : Int)
    (h : sat.sunlit tP = false) :
    processTriple q sat tS tP tE = none := by
  simp only [processTriple]
  split_ifs with h1 h2 h3 h4 h5 h6
  all_goals first
    | rfl
    | (rw [h] at h6; exact Bool.noConfusion h6)

/-- Witness for C5: Scenario B, an object sunlit at every instant except
the peak instant yields no candidate from its triple. -/
theorem peak_sunlit_gate_witness :
    satPeakShadow.sunlit 150 = false ∧
    processTriple qA satPeakShadow 100 150 200 = none :=
  ⟨by decide, peak_sunlit_gate qA satPeakShadow 100 150 200 (by decide)⟩

/-- Concrete evaluation: the search over the one-object catalog [satB]
returns exactly the pass passB. -/
theorem find_visible_satB_eval :
    find_visible_satellites qA [satB] = some [passB] := by
  simp [find_visible_satellites, collectPasses, processSatellite, satB, qA,
    containsSTARLINK, containsSub, riseScan, tripleLoop, processTriple,
    sunlitScanFwd, sunlitScanBwd, passB]
  norm_num [azimuth_to_direction]

/-- Concrete evaluation: with the large-constellation object first in the
catalog, the search still returns exactly passB - the excluded object is
skipped before its (raising) propagator oracle is ever consulted. -/
theorem find_visible_star_eval :
    find_visible_satellites qA [satStar, satB] = some [passB] := by
  have hstar : containsSTARLINK satStar.name = true := by decide
  simp [find_visible_satellites, collectPasses, processSatellite, satStar,
    satB, qA, hstar, containsSTARLINK, containsSub, riseScan, tripleLoop,
    processTriple, sunlitScanFwd, sunlitScanBwd, passB]
  norm_num [azimuth_to_direction]

/-- C6: every pass of a successful search satisfies the PassCandidate
invariants - rise < peak < set (under the propagator contract that the
crossing events are strictly chronological), sunlit-window duration at
least the query minimum, peak elevation at least the query minimum, and
both sunlit boundaries inside [rise, set]. -/
theorem pass_invariants (q : Query) (catalog : List Satellite)
    (res : List Pass)
    (hord : ∀ sat ∈ catalog, sat.events.Pairwise (fun x y => x.1 < y.1))
    (hres : find_visible_satellites q catalog = some res) :
    ∀ p ∈ res, p.tStart < p.tPeak ∧ p.tPeak < p.tEnd ∧
      q.minDuration ≤ p.duration ∧ q.minPeakAltitude ≤ p.peakAlt ∧
      p.tStart ≤ p.tSunStart ∧ p.tSunStart ≤ p.tEnd ∧
      p.tStart ≤ p.tSunEnd ∧ p.tSunEnd ≤ p.tEnd := by
  intro p hp
  obtain ⟨sat, hsat, hname, suffix, a, b, c, hrs, hsub, hproc⟩ :=
    find_visible_unpack hres hp
  have hpw : ([a, b, c] : List (Int × Nat)).Pairwise (fun x y => x.1 < y.1) :=
    (hord sat hsat).sublist (hsub.trans (riseScan_isSuffix hrs).sublist)
  have hab : a.1 < b.1 := List.rel_of_pairwise_cons hpw (by simp)
  have hbc : b.1 < c.1 :=
    List.rel_of_pairwise_cons (List.Pairwise.of_cons hpw) (by simp)
  obtain ⟨hsn, hst, hpk, hse, hdur, halt, hss1, hss2, hse1, hse2, hsl⟩ :=
    processTriple_eq_some hproc
  refine ⟨?_, ?_, hdur, halt, ?_, ?_, ?_, ?_⟩
  · rw [hst, hpk]
    exact hab
  · rw [hpk, hse]
    exact hbc
  · rw [hst]
    exact hss1
  · rw [hse]
    exact le_of_lt hss2
  · rw [hst]
    exact le_of_lt hse1
  · rw [hse]
    exact hse2

/-- Witness for C6: the invariants hold of the concrete pass passB found
over the catalog [satB]. -/
theorem pass_invariants_witness :
    passB.tStart < passB.tPeak ∧ passB.tPeak < passB.tEnd ∧
      qA.minDuration ≤ passB.duration ∧ qA.minPeakAltitude ≤ passB.peakAlt ∧
      passB.tStart ≤ passB.tSunStart ∧ passB.tSunStart ≤ passB.tEnd ∧
      passB.tStart ≤ passB.tSunEnd ∧ passB.tSunEnd ≤ passB.tEnd :=
  pass_invariants qA [satB] [passB] (by decide) find_visible_satB_eval passB
    (List.mem_cons_self passB [])

/-- C7: when the catalog-inclusion flag is false, no returned pass belongs
to an object whose name contains STARLINK, and any such object is skipped
by the name pre-filter alone: its per-object scan returns the empty result
for every possible propagator oracle - including one that would raise on
any call (`height = none`) - so no propagator interaction takes place. -/
theorem starlink_excluded (q : Query) (hq : q.includeStarlink = false)
    (catalog : List Satellite) (res : List Pass)
    (hres : find_visible_satellites q catalog = some res) :
    (∀ p ∈ res, containsSTARLINK p.satName = false) ∧
    (∀ sat : Satellite, containsSTARLINK sat.name = true →
      processSatellite q sat = some []) := by
  constructor
  · intro p hp
    obtain ⟨sat, hsat, hname, suffix, a, b, c, hrs, hsub, hproc⟩ :=
      find_visible_unpack hres hp
    rw [(processTriple_eq_some hproc).1]
    rw [hq] at hname
    simpa using hname
  · intro sat hs
    simp [processSatellite, hq, hs]

/-- Witness for C7: over the catalog [satStar, satB] with the flag false,
the result contains no STARLINK pass and satStar is skipped without any
propagator call. -/
theorem starlink_excluded_witness :
    (∀ p ∈ [passB], containsSTARLINK p.satName = false) ∧
    (∀ sat : Satellite, containsSTARLINK sat.name = true →
      processSatellite qA sat = some []) :=
  starlink_excluded qA rfl [satStar, satB] [passB] find_visible_star_eval

/-- C8: the returned sequence is sorted ascending by rise instant for any
catalog ordering, it is a stable permutation of the collected passes - the
sublist of passes with any fixed rise instant is exactly the one collected
in catalog scan order - and the result is functionally determined by the
query and catalog (two runs yield the same sequence). -/
theorem output_sorted_stable (q : Query) (catalog : List Satellite)
    (res : List Pass) (hres : find_visible_satellites q catalog = some res) :
    res.Pairwise (fun x y => x.tStart ≤ y.tStart) ∧
    (∃ collected, collectPasses q catalog = some collected ∧
      res.Perm collected ∧
      ∀ v : Int, res.filter (fun p => decide (p.tStart = v)) =
        collected.filter (fun p => decide (p.tStart = v))) ∧
    (∀ res2, find_visible_satellites q catalog = some res2 → res2 = res) := by
  simp only [find_visible_satellites] at hres
  rcases hc : collectPasses q catalog with _ | collected <;> rw [hc] at hres
  · exact Option.noConfusion hres
  · simp only [Option.map_some'] at hres
    injection hres with hres
    subst hres
    have htrans : ∀ a b c : Pass, decide (a.tStart ≤ b.tStart) →
        decide (b.tStart ≤ c.tStart) → decide (a.tStart ≤ c.tStart) := by
      intro a b c hab hbc
      simp only [decide_eq_true_eq] at hab hbc ⊢
      omega
    have htotal : ∀ a b : Pass,
        decide (a.tStart ≤ b.tStart) || decide (b.tStart ≤ a.tStart) := by
      intro a b
      simp only [Bool.or_eq_true, decide_eq_true_eq]
      omega
    refine ⟨?_, ⟨collected, rfl, List.mergeSort_perm collected _, ?_⟩, ?_⟩
    · exact (List.sorted_mergeSort htrans htotal collected).imp
        (fun h => by simpa using h)
    · intro v
      have hs1 : List.Sublist
          (collected.filter (fun p => decide (p.tStart = v))) collected :=
        List.filter_sublist collected
      have hpw2 : (collected.filter
          (fun p => decide (p.tStart = v))).Pairwise
          (fun a b => decide (a.tStart ≤ b.tStart)) := by
        apply List.pairwise_of_forall_mem_list
        intro a ha b hb
        have ha2 := (List.mem_filter.mp ha).2
        have hb2 := (List.mem_filter.mp hb).2
        simp only [decide_eq_true_eq] at ha2 hb2 ⊢
        omega
      have hsub2 := List.sublist_mergeSort htrans htotal hpw2 hs1
      have hsub3 := hsub2.filter (fun p => decide (p.tStart = v))
      rw [List.filter_filter] at hsub3
      simp only [Bool.and_self] at hsub3
      have hperm := (List.mergeSort_perm collected
        (fun a b => decide (a.tStart ≤ b.tStart))).filter
        (fun p => decide (p.tStart = v))
      exact (hsub3.eq_of_length hperm.length_eq.symm).symm
    · intro res2 h2
      simp only [find_visible_satellites, hc, Option.map_some'] at h2
      injection h2 with h2
      exact h2.symm

/-- Witness for C8: over the catalog [satB] the result [passB] is sorted,
stable relative to the collected passes, and unique. -/
theorem output_sorted_stable_witness :
    ([passB].Pairwise (fun x y => x.tStart ≤ y.tStart)) ∧
    (∃ collected, collectPasses qA [satB] = some collected ∧
      [passB].Perm collected ∧
      ∀ v : Int, [passB].filter (fun p => decide (p.tStart = v)) =
        collected.filter (fun p => decide (p.tStart = v))) ∧
    (∀ res2, find_visible_satellites qA [satB] = some res2 →
      res2 = [passB]) :=
  output_sorted_stable qA [satB] [passB] find_visible_satB_eval

/-- C9 amended: a propagation failure for one object that is not excluded
by the name pre-filter aborts the whole search - the code installs no
per-object exception handler, so nothing is returned, not even the passes
of the other objects. -/
theorem propagation_error_aborts (q : Query) (catalog : List Satellite)
    (sat : Satellite) (hmem : sat ∈ catalog)
    (hname : (!q.includeStarlink && containsSTARLINK sat.name) = false)
    (hheight : sat.height = none) :
    find_visible_satellites q catalog = none := by
  have hps : processSatellite q sat = none := by
    simp [processSatellite, hname, hheight]
  simp only [find_visible_satellites,
    collectPasses_abort catalog sat hmem hps, Option.map_none']

/-- Witness for C9: a one-object catalog whose object's propagator raises
yields an aborted search. -/
theorem propagation_error_aborts_witness :
    find_visible_satellites qA [satBadProp] = none :=
  propagation_error_aborts qA [satBadProp] satBadProp
    (List.mem_cons_self satBadProp []) (by decide) rfl

/-- C9 counterexample: with the failing object satBadProp in front of the
healthy object satB, the search aborts and returns nothing, although
[satB] alone yields the pass passB - so a per-object propagation error is
not isolated and the passes of other objects are lost, contrary to the
claim. -/
theorem propagation_error_counterexample :
    find_visible_satellites qA [satBadProp, satB] = none ∧
    find_visible_satellites qA [satB] = some [passB] := by
  constructor
  · simp [find_visible_satellites, collectPasses, processSatellite,
      satBadProp, qA, containsSTARLINK, containsSub]
  · simp [find_visible_satellites, collectPasses, processSatellite, satB,
      qA, containsSTARLINK, containsSub, riseScan, tripleLoop, processTriple,
      sunlitScanFwd, sunlitScanBwd, passB]
    norm_num [azimuth_to_direction]

/-- C10: the scan for the first rise event is unguarded - for an object
that reaches it (name and height filters passed, more than 3 events)
whose event sequence has no rise kind, the index runs past the end of the
sequence (modelled as the whole call aborting), instead of the object
being skipped; the scan stays in bounds exactly when a rise event
exists. -/
theorem rise_scan_unguarded (q : Query) (sat : Satellite)
    (hname : (!q.includeStarlink && containsSTARLINK sat.name) = false)
    (hheight : ∃ hgt, sat.height = some hgt ∧
      ¬(hgt < q.smaMin ∨ q.smaMax < hgt))
    (hlen : 3 < sat.events.length)
    (hnorise : ∀ e ∈ sat.events, e.2 ≠ 0) :
    riseScan sat.events = none ∧ processSatellite q sat = none ∧
    (∀ l : List (Int × Nat), (∃ e ∈ l, e.2 = 0) →
      (riseScan l).isSome = true) := by
  obtain ⟨hgt, hh, hr⟩ := hheight
  have h1 : riseScan sat.events = none :=
    (riseScan_eq_none_iff sat.events).mpr hnorise
  refine ⟨h1, ?_, ?_⟩
  · simp [processSatellite, hname, hh, hr, h1,
      show ¬(sat.events.length ≤ 3) by omega]
  · intro l hl
    obtain ⟨e, he, hk⟩ := hl
    rcases h : riseScan l with _ | s
    · exact absurd hk ((riseScan_eq_none_iff l).mp h e he)
    · rfl

/-- Witness for C10: a rise-free four-event object within the height range
crashes the scan instead of being skipped. -/
theorem rise_scan_unguarded_witness :
    riseScan satNoRise.events = none ∧
    processSatellite qA satNoRise = none ∧
    (∀ l : List (Int × Nat), (∃ e ∈ l, e.2 = 0) →
      (riseScan l).isSome = true) :=
  rise_scan_unguarded qA satNoRise (by decide) ⟨550, rfl, by decide⟩
    (by decide) (by decide)

/-- C1: Scenario A evaluated on the code: the single complete triple of
satA passes every per-triple filter (processTriple accepts it), yet the
search returns no candidate for the object, because the guard
`len(events) <= 3` skips every object whose window holds exactly 3
crossing events - the code contradicts the spec's Scenario A, which
requires exactly one PassCandidate. -/
theorem single_triple_object_skipped :
    (processTriple qA satA 100 150 200).isSome = true ∧
    find_visible_satellites qA [satA] = some [] := by
  constructor
  · simp [processTriple, qA, satA, sunlitScanFwd, sunlitScanBwd]
    norm_num
  · simp [find_visible_satellites, collectPasses, processSatellite, satA,
      qA, containsSTARLINK, containsSub]

end SatFinder
